import Mathlib

/-!
# Verification of the ATS resume-scoring core

Shallow embedding of the deterministic scoring engine of
`src/agents/ats_scorer.py`, the weight-loading logic of
`src/utils/config.py`, and the skill-taxonomy matcher of
`src/rag/knowledge_base.py`.

Modelling conventions:
* Python `float` arithmetic is modelled with `ℚ` (the scores are small
  rationals; no claim depends on binary floating-point rounding), except the
  confidence-interval computation which needs `Real.sqrt` and is modelled
  over `ℝ`.
* A Python string field that may be absent (`dict.get` returning `None`) is
  modelled as `String` with `""` standing for both `None` and the empty
  string: the source only ever tests such fields for truthiness, and `None`
  and `""` are equally falsy.
* `datetime.now().year` is passed in explicitly as a `currentYear : ℤ`
  parameter, so that wall-clock dependence becomes visible in the types.
* The md5 consistency hash over the sorted-key JSON serialization of
  `(resume, job_requirements, weights)` is modelled by the triple itself
  used as the cache key (an injective stand-in for the fingerprint).
* A resume's `gpa` field is a string that the source feeds to `float(...)`,
  swallowing `ValueError`; it is modelled as `Option ℚ` (`none` = missing or
  unparsable).
-/

namespace ATS

/-! ## Python `in` (substring) on strings -/

/-- `subAt needle hay` — does `needle` occur at the head of `hay`? -/
def subAt : List Char → List Char → Bool
  | [], _ => true
  | _ :: _, [] => false
  | c :: cs, d :: ds => c == d && subAt cs ds

/-- Substring occurrence on character lists (Python `needle in hay`). -/
def hasSub : List Char → List Char → Bool
  | [], needle => needle.isEmpty
  | h :: t, needle => subAt needle (h :: t) || hasSub t needle

/-- Python's `needle in hay` for strings. -/
def strHas (hay needle : String) : Bool :=
  hasSub hay.data needle.data

/-- Python `str.lower()` (ASCII, which is all the source compares). -/
def toLowerStr (s : String) : String := ⟨s.data.map Char.toLower⟩

/-- Split a character list at every occurrence of `c`
(Python `s.split(c)`; `"".split(c) == [""]`). -/
def splitChar (c : Char) : List Char → List (List Char)
  | [] => [[]]
  | d :: t =>
    if d == c then [] :: splitChar c t
    else
      match splitChar c t with
      | h :: rest => (d :: h) :: rest
      | [] => [[d]]

/-- Python `s.split("/")`. -/
def pySplit (s : String) (c : Char) : List String :=
  (splitChar c s.data).map (fun l => ⟨l⟩)

/-- Digit-string to `ℕ`. -/
def digitsToNat (l : List Char) : Option ℕ :=
  if l ≠ [] ∧ l.all Char.isDigit then
    some (l.foldl (fun a c => a * 10 + (c.toNat - 48)) 0)
  else none

/-- Python `int(s)` (`ValueError` as `none`; an optional leading sign then
decimal digits — the only shapes the date fields can take). -/
def pyToInt (s : String) : Option ℤ :=
  match s.data with
  | '-' :: rest => (digitsToNat rest).map (fun n => -(n : ℤ))
  | '+' :: rest => (digitsToNat rest).map (fun n => (n : ℤ))
  | l => (digitsToNat l).map (fun n => (n : ℤ))

/-! ## Data model (§3 StructuredResume / JobRequirements) -/

structure PersonalInfo where
  name : String
  email : String
  phone : String
  location : String
  linkedin : String
deriving DecidableEq

structure Experience where
  title : String
  company : String
  startDate : String
  endDate : String
  responsibilities : List String
  achievements : List String
deriving DecidableEq

structure Education where
  degree : String
  institution : String
  gpa : Option ℚ
deriving DecidableEq

/-- Structured resume; `personalInfo = none` models an absent (or empty,
hence falsy) `personal_info` dict, empty lists model absent sections. -/
structure Resume where
  personalInfo : Option PersonalInfo
  professionalSummary : String
  experience : List Experience
  education : List Education
  skills : List (String × List String)
  additionalSections : List String
deriving DecidableEq

/-- Job requirements; an empty list models an absent (falsy) field, which is
how the source tests every one of these fields. -/
structure JobReq where
  requiredSkills : List String
  preferredExperience : List String
  preferredEducation : List String
  keywords : List String
deriving DecidableEq

/-- The `{}` resume. -/
def emptyResume : Resume :=
  { personalInfo := none, professionalSummary := "", experience := [],
    education := [], skills := [], additionalSections := [] }

/-! ## ScoringWeights (`ats_scorer.py` dataclass) -/

structure ScoringWeights where
  skillsMatch : ℚ
  experienceRelevance : ℚ
  educationAlignment : ℚ
  formatStructure : ℚ
  keywordOptimization : ℚ
deriving DecidableEq

/-- The dataclass defaults: 0.30 / 0.25 / 0.15 / 0.15 / 0.15. -/
def defaultWeights : ScoringWeights :=
  { skillsMatch := 30/100, experienceRelevance := 25/100,
    educationAlignment := 15/100, formatStructure := 15/100,
    keywordOptimization := 15/100 }

/-! ## `_score_skills_match` -/

/-- All skills across every skill-category list, lower-cased
(`ats_scorer.py` lines 170–176). -/
def allResumeSkills (r : Resume) : List String :=
  (r.skills.map (fun p => p.2.map toLowerStr)).flatten

/-- `_score_skills_match` (lines 166–206). -/
def scoreSkillsMatch (r : Resume) (j : Option JobReq) : ℚ :=
  let all := allResumeSkills r
  if all = [] then 0
  else
    let ladder : ℚ :=
      if all.length ≥ 15 then 95
      else if all.length ≥ 10 then 85
      else if all.length ≥ 7 then 75
      else if all.length ≥ 5 then 65
      else if all.length ≥ 3 then 50
      else 30
    match j with
    | some jr =>
      if jr.requiredSkills ≠ [] then
        let req := jr.requiredSkills.map toLowerStr
        let matched := (all.dedup.filter (fun s => s ∈ req)).length
        min ((matched : ℚ) / (req.length : ℚ) * 100) 100
      else ladder
    | none => ladder

/-! ## `_calculate_duration` -/

/-- `_calculate_duration` (lines 430–462); `currentYear` stands for
`datetime.now().year`.  `pyToInt` models Python `int(...)` with
`ValueError` as `none`. -/
def calculateDuration (startDate endDate : String) (currentYear : ℤ) : ℚ :=
  if startDate = "" then 0
  else if endDate ≠ "" ∧ toLowerStr endDate ≠ "present" then
    let sp := pySplit startDate '/'
    let ep := pySplit endDate '/'
    if sp.length ≥ 2 ∧ ep.length ≥ 2 then
      match sp.getLast?.bind pyToInt, sp.head?.bind pyToInt,
            ep.getLast?.bind pyToInt, ep.head?.bind pyToInt with
      | some sy, some sm, some ey, some em =>
          max (((ey - sy : ℤ) : ℚ) + (((em - sm : ℤ) : ℚ)) / 12) 0
      | _, _, _, _ => 0
    else 0
  else
    let sp := pySplit startDate '/'
    if sp.length ≥ 2 then
      match sp.getLast?.bind pyToInt with
      | some sy => max (((currentYear - sy : ℤ) : ℚ)) 0
      | none => 0
    else 0

/-! ## `_score_experience_relevance` -/

def seniorWords : List String := ["senior", "lead", "manager", "director", "vp"]

def juniorWords : List String := ["junior", "intern", "assistant"]

/-- Duration bonus (lines 225–231). -/
def durationScore (d : ℚ) : ℚ :=
  if d ≥ 3 then 30 else if d ≥ 1 then 20 else 10

/-- Responsibilities-count bonus (lines 234–240). -/
def respScore (n : ℕ) : ℚ :=
  if n ≥ 5 then 25 else if n ≥ 3 then 20 else 10

/-- Achievements bonus (lines 243–249). -/
def achScore (achievements : List String) : ℚ :=
  if achievements ≠ [] then
    25 + (if (achievements.countP (fun a => a.data.any Char.isDigit)) > 0 then 15 else 0)
  else 0

/-- Title-seniority bonus (lines 252–257). -/
def seniorityBonus (titleLower : String) : ℚ :=
  if seniorWords.any (fun w => strHas titleLower w) then 20 else 0

/-- Per-entry weight (lines 252–257): 1.5 for senior titles, 0.8 for junior
titles, 1 otherwise. -/
def entryWeight (titleLower : String) : ℚ :=
  if seniorWords.any (fun w => strHas titleLower w) then 3/2
  else if juniorWords.any (fun w => strHas titleLower w) then 4/5
  else 1

/-- Preferred-experience relevance bonus (lines 260–266). -/
def relevanceBonus (e : Experience) (j : Option JobReq) : ℚ :=
  match j with
  | some jr =>
    if jr.preferredExperience ≠ [] then
      let txt := (e.title ++ " " ++ String.intercalate " " e.responsibilities)
      ((jr.preferredExperience.map toLowerStr).countP (fun p => strHas txt p) : ℚ) * 10
    else 0
  | none => 0

/-- One experience entry's `(exp_score, weight)` (lines 220–269). -/
def expEntryScore (e : Experience) (j : Option JobReq) (currentYear : ℤ) : ℚ × ℚ :=
  let d := calculateDuration e.startDate e.endDate currentYear
  let titleLower := toLowerStr e.title
  (durationScore d + respScore e.responsibilities.length + achScore e.achievements
     + seniorityBonus titleLower + relevanceBonus e j,
   entryWeight titleLower)

/-- `_score_experience_relevance` (lines 208–275). -/
def scoreExperienceRelevance (r : Resume) (j : Option JobReq) (currentYear : ℤ) : ℚ :=
  if r.experience = [] then 0
  else
    let pairs := r.experience.map (fun e => expEntryScore e j currentYear)
    let total := (pairs.map (fun p => p.1 * p.2)).sum
    let wsum := (pairs.map Prod.snd).sum
    if wsum > 0 then min (total / wsum) 100 else 0

/-! ## `_score_education_alignment` -/

/-- One education entry's score (lines 288–331). -/
def eduEntryScore (edu : Education) (j : Option JobReq) : ℚ :=
  let degree := toLowerStr edu.degree
  let base : ℚ :=
    if strHas degree "phd" || strHas degree "doctorate" then 100
    else if strHas degree "master" || strHas degree "mba" then 85
    else if strHas degree "bachelor" then 75
    else if strHas degree "associate" then 60
    else if ["certificate", "diploma"].any (fun c => strHas degree c) then 50
    else 40
  let instLower := toLowerStr edu.institution
  let instBonus : ℚ :=
    if ["university", "college", "institute"].any (fun w => strHas instLower w)
    then 10 else 0
  let gpaBonus : ℚ :=
    match edu.gpa with
    | some g => if g ≥ 37/10 then 15 else if g ≥ 33/10 then 10 else if g ≥ 3 then 5 else 0
    | none => 0
  let fieldBonus : ℚ :=
    match j with
    | some jr =>
      if jr.preferredEducation ≠ [] ∧
         (jr.preferredEducation.map toLowerStr).any (fun f => strHas degree f)
      then 20 else 0
    | none => 0
  base + instBonus + gpaBonus + fieldBonus

/-- `_score_education_alignment` (lines 277–333); 40 base when there is no
education section, else max over entries capped at 100. -/
def scoreEducationAlignment (r : Resume) (j : Option JobReq) : ℚ :=
  if r.education = [] then 40
  else min ((r.education.map (fun e => eduEntryScore e j)).foldl max 0) 100

/-! ## `_score_format_structure` -/

/-- A personal-info field counts when truthy and not the literal
"Not specified" (lines 350–352). -/
def personalFieldOk (s : String) : Bool :=
  s ≠ "" && s ≠ "Not specified"

/-- An experience entry with `title`, `company` and `start_date` all truthy
(lines 360–364). -/
def experienceComplete (e : Experience) : Bool :=
  e.title ≠ "" && e.company ≠ "" && e.startDate ≠ ""

/-- A truthy skill-category value (line 372). -/
def nonEmptySkillCategory (p : String × List String) : Bool :=
  p.2 ≠ []

/-- `_score_format_structure` (lines 335–380). -/
def scoreFormatStructure (r : Resume) : ℚ :=
  let presentSections : ℕ :=
    (if r.personalInfo.isSome then 1 else 0) + (if r.experience ≠ [] then 1 else 0)
    + (if r.education ≠ [] then 1 else 0) + (if r.skills ≠ [] then 1 else 0)
  let s1 : ℚ := (presentSections : ℚ) / 4 * 40
  let presentPersonal : ℕ :=
    match r.personalInfo with
    | some p => (if personalFieldOk p.name then 1 else 0)
        + (if personalFieldOk p.email then 1 else 0)
        + (if personalFieldOk p.phone then 1 else 0)
    | none => 0
  let s2 : ℚ := (presentPersonal : ℚ) / 3 * 20
  let s3 : ℚ :=
    if r.experience ≠ [] then
      let complete := (r.experience.filter experienceComplete).length
      (complete : ℚ) / (r.experience.length : ℚ) * 20
    else 0
  let s4 : ℚ :=
    if r.skills ≠ [] then
      let cats := (r.skills.filter nonEmptySkillCategory).length
      if cats ≥ 3 then 20 else if cats ≥ 2 then 15 else if cats ≥ 1 then 10 else 0
    else 0
  min (s1 + s2 + s3 + s4) 100

/-! ## `_extract_all_text` and `_score_keyword_optimization` -/

/-- `_extract_all_text` (lines 464–493) specialised to the §3 schema: string
values of each section are collected in schema order and joined with spaces.
(The numeric `gpa` abstraction omits the gpa string from the blob; no claim
depends on it.) -/
def extractAllText (r : Resume) : String :=
  let piParts : List String :=
    match r.personalInfo with
    | some p => [p.name, p.email, p.phone, p.location, p.linkedin]
    | none => []
  let expParts : List String :=
    (r.experience.map (fun e =>
      [e.title, e.company, e.startDate, e.endDate]
        ++ e.responsibilities ++ e.achievements)).flatten
  let eduParts : List String :=
    (r.education.map (fun e => [e.degree, e.institution])).flatten
  let skillParts : List String := (r.skills.map Prod.snd).flatten
  String.intercalate " "
    (piParts ++ [r.professionalSummary] ++ expParts ++ eduParts
      ++ skillParts ++ r.additionalSections)

/-- The fixed `industry_keywords["general"]` list (lines 402–403). -/
def generalKeywords : List String :=
  ["management", "leadership", "communication", "project", "team",
   "problem solving", "analysis", "strategy", "development"]

/-- Target keywords taken from the job requirements (lines 407–412):
`keywords` when truthy, extended by `required_skills` when truthy. -/
def targetKeywords (j : Option JobReq) : List String :=
  match j with
  | some jr =>
    (if jr.keywords ≠ [] then jr.keywords.map toLowerStr else [])
      ++ (if jr.requiredSkills ≠ [] then jr.requiredSkills.map toLowerStr else [])
  | none => []

/-- Fallback to the general list when no job-derived keywords exist
(lines 414–416). -/
def finalTargets (j : Option JobReq) : List String :=
  if targetKeywords j = [] then generalKeywords else targetKeywords j

/-- `_score_keyword_optimization` (lines 382–428), including its trailing
`return 50.0` default branch. -/
def scoreKeywordOptimization (r : Resume) (j : Option JobReq) : ℚ :=
  let allText := toLowerStr (extractAllText r)
  if allText = "" then 0
  else
    let targets := finalTargets j
    let matched := targets.countP (fun k => strHas allText k)
    if targets.length > 0 then min ((matched : ℚ) / (targets.length : ℚ) * 100) 100
    else 50

/-! ## Aggregation (`score_resume`, lines 115–164) -/

/-- The five category scores, in the insertion order of the
`category_scores` dict (lines 116–122). -/
structure CategoryScores where
  skillsMatch : ℚ
  experienceRelevance : ℚ
  educationAlignment : ℚ
  formatStructure : ℚ
  keywordOptimization : ℚ
deriving DecidableEq

def categoryScores (r : Resume) (j : Option JobReq) (currentYear : ℤ) : CategoryScores :=
  { skillsMatch := scoreSkillsMatch r j
    experienceRelevance := scoreExperienceRelevance r j currentYear
    educationAlignment := scoreEducationAlignment r j
    formatStructure := scoreFormatStructure r
    keywordOptimization := scoreKeywordOptimization r j }

/-- `list(category_scores.values())` (line 568). -/
def scoresList (cs : CategoryScores) : List ℚ :=
  [cs.skillsMatch, cs.experienceRelevance, cs.educationAlignment,
   cs.formatStructure, cs.keywordOptimization]

/-- Weighted overall score (lines 125–131). -/
def overallScore (w : ScoringWeights) (cs : CategoryScores) : ℚ :=
  cs.skillsMatch * w.skillsMatch
    + cs.experienceRelevance * w.experienceRelevance
    + cs.educationAlignment * w.educationAlignment
    + cs.formatStructure * w.formatStructure
    + cs.keywordOptimization * w.keywordOptimization

/-- Python `round(x, 2)` (ties are astronomically unlikely on the source's
floats; modelled as round-half-up on `ℚ`). -/
def round2 (q : ℚ) : ℚ := ((round (q * 100) : ℤ) : ℚ) / 100

def roundCategoryScores (cs : CategoryScores) : CategoryScores :=
  { skillsMatch := round2 cs.skillsMatch
    experienceRelevance := round2 cs.experienceRelevance
    educationAlignment := round2 cs.educationAlignment
    formatStructure := round2 cs.formatStructure
    keywordOptimization := round2 cs.keywordOptimization }

/-! ## `_compare_with_benchmarks` (lines 593–623) -/

structure Benchmark where
  averageScore : ℚ
  topPercentile : ℚ
deriving DecidableEq

/-- The static `industry_benchmarks` table (lines 51–57). -/
def industryBenchmarks : List (String × Benchmark) :=
  [("technology", ⟨75, 90⟩), ("healthcare", ⟨70, 85⟩), ("finance", ⟨78, 92⟩),
   ("marketing", ⟨72, 87⟩), ("general", ⟨70, 85⟩)]

structure BenchmarkComparison where
  industry : String
  score : ℚ
  industryAverage : ℚ
  topPercentileThreshold : ℚ
  performanceLevel : String
  percentileEstimate : ℚ
deriving DecidableEq

def compareWithBenchmarks (score : ℚ) (industry : String) : BenchmarkComparison :=
  let b := (((industryBenchmarks.find? (fun p => p.1 == industry)).map Prod.snd).getD
    ⟨70, 85⟩)
  let lp : String × ℚ :=
    if score ≥ b.topPercentile then ("Top 10%", 95)
    else if score ≥ b.averageScore + 10 then ("Above Average", 75)
    else if score ≥ b.averageScore then ("Average", 50)
    else if score ≥ b.averageScore - 10 then ("Below Average", 25)
    else ("Needs Significant Improvement", 10)
  { industry := industry, score := score, industryAverage := b.averageScore,
    topPercentileThreshold := b.topPercentile, performanceLevel := lp.1,
    percentileEstimate := lp.2 }

/-! ## `_generate_scoring_recommendations` (lines 625–659)

The Python function also receives `detailed_breakdown` but never reads it,
so the embedding takes only the category scores. -/

def generateScoringRecommendations (cs : CategoryScores) : List String :=
  (if cs.skillsMatch < 70 then
    ["Add more relevant technical skills matching job requirements"] else [])
  ++ (if cs.experienceRelevance < 70 then
    ["Include more quantified achievements in work experience",
     "Add action verbs and specific accomplishments"] else [])
  ++ (if cs.educationAlignment < 60 then
    ["Consider adding relevant certifications or training"] else [])
  ++ (if cs.formatStructure < 70 then
    ["Improve resume formatting and organization",
     "Ensure all sections are complete and well-structured"] else [])
  ++ (if cs.keywordOptimization < 70 then
    ["Include more industry-relevant keywords",
     "Optimize for ATS keyword scanning"] else [])
  ++ (if (scoresList cs).sum / ((scoresList cs).length : ℚ) < 60 then
    ["Consider professional resume review and rewriting"] else [])

/-! ## Agent state, consistency cache and scoring history -/

/-- The cache key: stand-in for
`md5(json(resume, sort_keys) | json(job or {}, sort_keys) | weights.__dict__)`
(lines 495–505). `industry` is *not* part of it. -/
abbrev CacheKey := Resume × Option JobReq × ScoringWeights

/-- The numeric part of a `ScoreResult` (lines 148–156).  The
`detailed_breakdown` (which holds only display text plus a timestamp) and
the real-valued confidence interval are modelled separately; the
`consistency_hash` field is the `CacheKey` under which the result is
stored (re-stamping it on a cache hit, line 112, writes back the same
key and is a semantic no-op). -/
structure ScoreResult where
  overallScore : ℚ
  categoryScores : CategoryScores
  benchmarkComparison : BenchmarkComparison
  recommendations : List String
deriving DecidableEq

/-- One `scoring_history` entry (lines 665–675), without the timestamp. -/
structure LogEntry where
  overallScore : ℚ
  industry : String
  hadJobRequirements : Bool
deriving DecidableEq

structure AgentState where
  weights : ScoringWeights
  consistencyCache : List (CacheKey × ScoreResult)
  scoringHistory : List LogEntry
deriving DecidableEq

/-- `ATSScoringAgent.__init__` (lines 44–48):
`self.weights = scoring_weights or ScoringWeights()`, empty cache and
history.  Note: no validation of the given weights. -/
def initAgent (scoringWeights : Option ScoringWeights) : AgentState :=
  { weights := scoringWeights.getD defaultWeights,
    consistencyCache := [], scoringHistory := [] }

/-- `score_resume` (lines 92–164): cache lookup, category scoring, weighted
aggregation, benchmark comparison, recommendations, caching, history log.
Returns the result together with the updated agent state. -/
def scoreResume (st : AgentState) (r : Resume) (j : Option JobReq)
    (industry : String) (currentYear : ℤ) : ScoreResult × AgentState :=
  let key : CacheKey := (r, j, st.weights)
  match st.consistencyCache.find? (fun p => decide (p.1 = key)) with
  | some p => (p.2, st)
  | none =>
    let cs := categoryScores r j currentYear
    let overall := overallScore st.weights cs
    let result : ScoreResult :=
      { overallScore := round2 overall
        categoryScores := roundCategoryScores cs
        benchmarkComparison := compareWithBenchmarks overall industry
        recommendations := generateScoringRecommendations cs }
    let entry : LogEntry :=
      { overallScore := round2 overall, industry := industry,
        hadJobRequirements := j.isSome }
    (result,
     { st with consistencyCache := (key, result) :: st.consistencyCache,
               scoringHistory := st.scoringHistory ++ [entry] })

/-- `get_scoring_statistics`'s `consistency_rate` field (line 694):
`len(consistency_cache) / len(scoring_history) * 100`. -/
def consistencyRate (st : AgentState) : ℚ :=
  (st.consistencyCache.length : ℚ) / (st.scoringHistory.length : ℚ) * 100

/-- Apply a sequence of `score_resume` calls to an agent. -/
def applyCalls (st : AgentState) : List (Resume × Option JobReq × String × ℤ) → AgentState
  | [] => st
  | c :: cs => applyCalls (scoreResume st c.1 c.2.1 c.2.2.1 c.2.2.2).2 cs

/-! ## `_calculate_confidence_interval` (lines 565–591)

This is the one place the source computes a square root, so it is modelled
over `ℝ` (hence noncomputable). -/

/-- `np.std` (population standard deviation, ddof=0). -/
noncomputable def npStd (l : List ℚ) : ℝ :=
  Real.sqrt (((l.map (fun x => ((x : ℝ) - (l.map (fun x => (x : ℝ))).sum / (l.length : ℝ)) ^ 2)).sum)
    / (l.length : ℝ))

noncomputable def calcConfidenceInterval (w : ScoringWeights) (cs : CategoryScores) : ℝ × ℝ :=
  let scores := scoresList cs
  if scores.length = 0 then (0, 0)
  else
    let weighted : List ℝ :=
      [(cs.skillsMatch : ℝ) * (w.skillsMatch : ℝ),
       (cs.experienceRelevance : ℝ) * (w.experienceRelevance : ℝ),
       (cs.educationAlignment : ℝ) * (w.educationAlignment : ℝ),
       (cs.formatStructure : ℝ) * (w.formatStructure : ℝ),
       (cs.keywordOptimization : ℝ) * (w.keywordOptimization : ℝ)]
    let overall := weighted.sum
    let marginError := (196 / 100 : ℝ) * (npStd scores / Real.sqrt (scores.length : ℝ))
    (max 0 (overall - marginError), min 100 (overall + marginError))

/-- Python `round(x, 2)` on the real-valued interval bounds. -/
noncomputable def round2R (x : ℝ) : ℝ := ((round (x * 100) : ℤ) : ℝ) / 100

/-- The `confidence_interval` field of a freshly computed `ScoreResult`
(line 139 and line 152 of `score_resume`). -/
noncomputable def freshConfidenceInterval (w : ScoringWeights) (r : Resume)
    (j : Option JobReq) (currentYear : ℤ) : ℝ × ℝ :=
  let ci := calcConfidenceInterval w (categoryScores r j currentYear)
  (round2R ci.1, round2R ci.2)

/-! ## Weight configuration (`src/utils/config.py`) -/

/-- The `ScoringConfig` dataclass of `config.py`. -/
structure ScoringConfig where
  skillsWeight : ℚ
  experienceWeight : ℚ
  educationWeight : ℚ
  formatWeight : ℚ
  keywordsWeight : ℚ
deriving DecidableEq

/-- The dataclass defaults 0.30 / 0.25 / 0.15 / 0.15 / 0.15. -/
def defaultScoringConfig : ScoringConfig :=
  { skillsWeight := 30/100, experienceWeight := 25/100,
    educationWeight := 15/100, formatWeight := 15/100,
    keywordsWeight := 15/100 }

/-- `ScoringConfig.validate_weights`: `abs(total - 1.0) < 0.001`. -/
def ScoringConfig.validateWeights (c : ScoringConfig) : Bool :=
  |c.skillsWeight + c.experienceWeight + c.educationWeight
    + c.formatWeight + c.keywordsWeight - 1| < 1/1000

/-- `ConfigManager._load_scoring_config` (config.py lines 203–217): build the
config from the environment values; when the weights do not validate, log a
warning and silently fall back to the defaults. -/
def loadScoringConfig (c : ScoringConfig) : ScoringConfig :=
  if c.validateWeights then c else defaultScoringConfig

/-! ## Skill taxonomy matching (`src/rag/knowledge_base.py`) -/

/-- A `SkillTaxonomy` entry restricted to the fields `find_skill_matches`
reads (`aliases`); `category` is kept so that distinct entries are
distinguishable. -/
structure TaxEntry where
  category : String
  aliases : List String
deriving DecidableEq

/-- The in-memory `skill_taxonomy` dict: lower-cased skill name → entry,
in insertion order. -/
abbrev Taxonomy := List (String × TaxEntry)

/-- The fuzzy-match loop body of `find_skill_matches`
(knowledge_base.py lines 313–321): first the alias test, then the two-way
substring test, on each taxonomy entry in turn. -/
def findMatchAux (skillLower : String) : Taxonomy → Option TaxEntry
  | [] => none
  | (k, e) :: rest =>
    if (e.aliases.map toLowerStr).contains skillLower then some e
    else if strHas k skillLower || strHas skillLower k then some e
    else findMatchAux skillLower rest

/-- Resolution of one queried skill by `find_skill_matches`
(lines 304–321): direct dict hit on the lower-cased name, else the fuzzy
loop. -/
def findSkillMatch (tax : Taxonomy) (skill : String) : Option TaxEntry :=
  let sl := toLowerStr skill
  match (tax.find? (fun p => p.1 == sl)).map Prod.snd with
  | some e => some e
  | none => findMatchAux sl tax

/-- `find_skill_matches` (lines 299–323) over a list of skills; unmatched
skills are simply absent from the result. -/
def findSkillMatches (tax : Taxonomy) (skills : List String) : List (String × TaxEntry) :=
  skills.filterMap (fun s => (findSkillMatch tax s).map (fun e => (s, e)))

/-- Combined per-entry predicate of the fuzzy loop: alias membership or
two-way substring against the taxonomy key. -/
def entryFuzzyMatches (skillLower : String) (p : String × TaxEntry) : Bool :=
  (p.2.aliases.map toLowerStr).contains skillLower
    || strHas p.1 skillLower || strHas skillLower p.1

/-! ## Spec-side definitions

These follow the specification's wording, for comparison (refinement) with
the code-derived definitions above. -/

/-- The spec's quantity ladder for skills: ≥15→95, ≥10→85, ≥7→75, ≥5→65,
≥3→50, else 30. -/
def quantityLadderSpec (n : ℕ) : ℚ :=
  if n ≥ 15 then 95
  else if n ≥ 10 then 85
  else if n ≥ 7 then 75
  else if n ≥ 5 then 65
  else if n ≥ 3 then 50
  else 30

/-- The spec's skills-match scorer: zero skills → 0; non-empty
`required_skills` → `100 × |resume_skills ∩ required_skills| / |required|`
capped at 100 (set intersection of the case-folded skills); otherwise the
quantity ladder. -/
def skillsMatchSpec (r : Resume) (j : Option JobReq) : ℚ :=
  let resumeSkills := allResumeSkills r
  if resumeSkills = [] then 0
  else
    match j with
    | some jr =>
      if jr.requiredSkills ≠ [] then
        let req := jr.requiredSkills.map toLowerStr
        min (((resumeSkills.toFinset ∩ req.toFinset).card : ℚ) / (req.length : ℚ) * 100) 100
      else quantityLadderSpec resumeSkills.length
    | none => quantityLadderSpec resumeSkills.length

/-- The spec's recommendation rule list, in its fixed order, with the final
rule keyed on the mean of the five category scores. -/
def recommendationsSpec (cs : CategoryScores) : List String :=
  (if cs.skillsMatch < 70 then
    ["Add more relevant technical skills matching job requirements"] else [])
  ++ (if cs.experienceRelevance < 70 then
    ["Include more quantified achievements in work experience",
     "Add action verbs and specific accomplishments"] else [])
  ++ (if cs.educationAlignment < 60 then
    ["Consider adding relevant certifications or training"] else [])
  ++ (if cs.formatStructure < 70 then
    ["Improve resume formatting and organization",
     "Ensure all sections are complete and well-structured"] else [])
  ++ (if cs.keywordOptimization < 70 then
    ["Include more industry-relevant keywords",
     "Optimize for ATS keyword scanning"] else [])
  ++ (if (cs.skillsMatch + cs.experienceRelevance + cs.educationAlignment
        + cs.formatStructure + cs.keywordOptimization) / 5 < 60 then
    ["Consider professional resume review and rewriting"] else [])

/-- The spec's confidence interval: margin `1.96 × σ/√5` where `σ` is the
population standard deviation of the five (unrounded) category scores,
around the weighted sum of the five unrounded category scores, clamped to
`[0, 100]` and rounded to 2 decimals. -/
noncomputable def confidenceIntervalSpec (w : ScoringWeights) (cs : CategoryScores) : ℝ × ℝ :=
  let overall : ℝ := (cs.skillsMatch : ℝ) * (w.skillsMatch : ℝ)
    + (cs.experienceRelevance : ℝ) * (w.experienceRelevance : ℝ)
    + (cs.educationAlignment : ℝ) * (w.educationAlignment : ℝ)
    + (cs.formatStructure : ℝ) * (w.formatStructure : ℝ)
    + (cs.keywordOptimization : ℝ) * (w.keywordOptimization : ℝ)
  let mean : ℝ := ((cs.skillsMatch : ℝ) + (cs.experienceRelevance : ℝ)
    + (cs.educationAlignment : ℝ) + (cs.formatStructure : ℝ)
    + (cs.keywordOptimization : ℝ)) / 5
  let sd : ℝ := Real.sqrt ((((cs.skillsMatch : ℝ) - mean) ^ 2
    + ((cs.experienceRelevance : ℝ) - mean) ^ 2
    + ((cs.educationAlignment : ℝ) - mean) ^ 2
    + ((cs.formatStructure : ℝ) - mean) ^ 2
    + ((cs.keywordOptimization : ℝ) - mean) ^ 2) / 5)
  let margin : ℝ := (196 / 100 : ℝ) * sd / Real.sqrt 5
  (round2R (max 0 (overall - margin)), round2R (min 100 (overall + margin)))

/-! ## Concrete test inputs -/

/-- A 4-year mid-level entry scoring 65 with weight 1. -/
def e1 : Experience :=
  { title := "Engineer", company := "Acme", startDate := "01/2015",
    endDate := "01/2019", responsibilities := ["Built systems"],
    achievements := ["Improved quality"] }

/-- A 5-year senior entry scoring 70 with weight 1.5. -/
def e2 : Experience :=
  { title := "Senior Engineer", company := "Acme", startDate := "01/2010",
    endDate := "01/2015", responsibilities := ["A", "B", "C"],
    achievements := [] }

def pi1 : PersonalInfo :=
  { name := "Ada Smith", email := "ada@example.com", phone := "555-1234",
    location := "", linkedin := "" }

/-- A resume engineered to reach overall score exactly 80 against `jr1`. -/
def cr1 : Resume :=
  { personalInfo := some pi1,
    professionalSummary := "", experience := [e1, e2], education := [],
    skills := [("technical", ["Python"])], additionalSections := [] }

def jr1 : JobReq :=
  { requiredSkills := ["Python"], preferredExperience := [],
    preferredEducation := [], keywords := [] }

/-- A resume with one open-ended (`end_date = "present"`) experience entry,
whose duration therefore depends on the current year. -/
def cr2 : Resume :=
  { personalInfo := none, professionalSummary := "",
    experience := [{ title := "", company := "", startDate := "01/2022",
                     endDate := "present", responsibilities := [],
                     achievements := [] }],
    education := [], skills := [], additionalSections := [] }

/-- A weight set summing to 0.8. -/
def w08 : ScoringWeights :=
  { skillsMatch := 2/10, experienceRelevance := 2/10,
    educationAlignment := 2/10, formatStructure := 1/10,
    keywordOptimization := 1/10 }

/-- The same 0.8-sum weight set as a `ScoringConfig`. -/
def cfg08 : ScoringConfig :=
  { skillsWeight := 2/10, experienceWeight := 2/10, educationWeight := 2/10,
    formatWeight := 1/10, keywordsWeight := 1/10 }

/-- Taxonomy entry keyed "java", no aliases. -/
def taxJava : TaxEntry := { category := "programming", aliases := [] }

/-- Taxonomy entry keyed "js", alias "javascript". -/
def taxJs : TaxEntry := { category := "web", aliases := ["javascript"] }

/-- A two-entry taxonomy where the "java" key precedes the aliased "js"
entry. -/
def taxC8 : Taxonomy := [("java", taxJava), ("js", taxJs)]

/-- Resume for the spec's Scenario 4: skills `["Python"]`. -/
def scen4Resume : Resume :=
  { personalInfo := none, professionalSummary := "", experience := [],
    education := [], skills := [("technical", ["Python"])],
    additionalSections := [] }

/-- Job requirements for Scenario 4: required `["Python", "SQL", "AWS"]`. -/
def scen4Job : JobReq :=
  { requiredSkills := ["Python", "SQL", "AWS"], preferredExperience := [],
    preferredEducation := [], keywords := [] }

/-! # Helper lemmas -/

/-- Evaluation of `_calculate_duration` on a well-formed `MM/YYYY` pair. -/
lemma calculateDuration_mm_yyyy (s e : String) (y sy sm ey em : ℤ)
    (hs : s ≠ "") (he : e ≠ "" ∧ toLowerStr e ≠ "present")
    (h1 : (pySplit s '/').length ≥ 2) (h2 : (pySplit e '/').length ≥ 2)
    (h3 : (pySplit s '/').getLast?.bind pyToInt = some sy)
    (h4 : (pySplit s '/').head?.bind pyToInt = some sm)
    (h5 : (pySplit e '/').getLast?.bind pyToInt = some ey)
    (h6 : (pySplit e '/').head?.bind pyToInt = some em) :
    calculateDuration s e y
      = max (((ey - sy : ℤ) : ℚ) + (((em - sm : ℤ) : ℚ)) / 12) 0 := by
  rw [calculateDuration, if_neg (by simpa using hs), if_pos he, if_pos ⟨h1, h2⟩,
    h3, h4, h5, h6]

/-- Evaluation of `_calculate_duration` on the "present"/missing-end-date
branch: the result depends on the current year. -/
lemma calculateDuration_present (s e : String) (y sy : ℤ)
    (hs : s ≠ "") (he : ¬(e ≠ "" ∧ toLowerStr e ≠ "present"))
    (h1 : (pySplit s '/').length ≥ 2)
    (h2 : (pySplit s '/').getLast?.bind pyToInt = some sy) :
    calculateDuration s e y = max (((y - sy : ℤ) : ℚ)) 0 := by
  rw [calculateDuration, if_neg (by simpa using hs), if_neg he, if_pos h1, h2]

lemma dur_e1 : calculateDuration e1.startDate e1.endDate 2024 = 4 := by
  rw [calculateDuration_mm_yyyy e1.startDate e1.endDate 2024 2015 1 2019 1
    (by decide) (by decide) (by decide) (by decide) (by decide) (by decide)
    (by decide) (by decide)]
  norm_num

lemma dur_e2 : calculateDuration e2.startDate e2.endDate 2024 = 5 := by
  rw [calculateDuration_mm_yyyy e2.startDate e2.endDate 2024 2010 1 2015 1
    (by decide) (by decide) (by decide) (by decide) (by decide) (by decide)
    (by decide) (by decide)]
  norm_num

lemma exp_e1 : expEntryScore e1 (some jr1) 2024 = (65, 1) := by
  rw [expEntryScore, dur_e1]
  norm_num [durationScore, respScore, achScore, seniorityBonus, entryWeight,
    relevanceBonus,
    show toLowerStr e1.title = "engineer" from by decide,
    show e1.responsibilities.length = 1 from by decide,
    show e1.achievements = ["Improved quality"] from by decide,
    show (["Improved quality"].countP (fun a => a.data.any Char.isDigit)) = 0
      from by decide,
    show (seniorWords.any (fun w => strHas "engineer" w)) = false from by decide,
    show (juniorWords.any (fun w => strHas "engineer" w)) = false from by decide,
    jr1]

lemma exp_e2 : expEntryScore e2 (some jr1) 2024 = (70, 3/2) := by
  rw [expEntryScore, dur_e2]
  norm_num [durationScore, respScore, achScore, seniorityBonus, entryWeight,
    relevanceBonus,
    show toLowerStr e2.title = "senior engineer" from by decide,
    show e2.responsibilities.length = 3 from by decide,
    show e2.achievements = ([] : List String) from by decide,
    show (seniorWords.any (fun w => strHas "senior engineer" w)) = true
      from by decide,
    jr1]

lemma skills_cr1 : scoreSkillsMatch cr1 (some jr1) = 100 := by
  rw [scoreSkillsMatch]
  norm_num [show allResumeSkills cr1 = ["python"] from by decide,
    show jr1.requiredSkills = ["Python"] from by decide,
    show (["python"] : List String).dedup = ["python"] from by decide,
    show toLowerStr "Python" = "python" from by decide,
    List.filter, jr1]

lemma exprel_cr1 : scoreExperienceRelevance cr1 (some jr1) 2024 = 68 := by
  rw [scoreExperienceRelevance]
  norm_num [show cr1.experience = [e1, e2] from rfl, exp_e1, exp_e2,
    show ¬([e1, e2] = ([] : List Experience)) from by decide]

lemma edu_cr1 : scoreEducationAlignment cr1 (some jr1) = 40 := by
  rw [scoreEducationAlignment]
  norm_num [show cr1.education = [] from rfl]

lemma fmt_cr1 : scoreFormatStructure cr1 = 80 := by
  rw [scoreFormatStructure]
  norm_num [show cr1.personalInfo = some pi1 from rfl,
    show cr1.experience = [e1, e2] from rfl,
    show cr1.education = ([] : List Education) from rfl,
    show cr1.skills = [("technical", ["Python"])] from rfl,
    show ¬([e1, e2] = ([] : List Experience)) from by decide,
    show personalFieldOk pi1.name = true from by decide,
    show personalFieldOk pi1.email = true from by decide,
    show personalFieldOk pi1.phone = true from by decide,
    show ([e1, e2].filter experienceComplete).length = 2 from by decide,
    show ([("technical", ["Python"])].filter nonEmptySkillCategory).length = 1
      from by decide]

lemma kw_cr1 : scoreKeywordOptimization cr1 (some jr1) = 100 := by
  rw [scoreKeywordOptimization]
  norm_num [show toLowerStr (extractAllText cr1) ≠ "" from by decide,
    show finalTargets (some jr1) = ["python"] from by decide,
    show (["python"].countP
      (fun k => strHas (toLowerStr (extractAllText cr1)) k)) = 1 from by decide]

lemma cs_cr1 : categoryScores cr1 (some jr1) 2024 = ⟨100, 68, 40, 80, 100⟩ := by
  rw [categoryScores, skills_cr1, exprel_cr1, edu_cr1, fmt_cr1, kw_cr1]

lemma overall_cr1 :
    overallScore defaultWeights (categoryScores cr1 (some jr1) 2024) = 80 := by
  rw [cs_cr1]
  norm_num [overallScore, defaultWeights]

/-- A second `score_resume` call with the same `(resume, job)` on the agent
state left by the first call is a cache hit and returns the first call's
result, whatever the industries and years are: the fingerprint covers only
`(resume, job requirements, weights)`. -/
lemma scoreResume_second (st : AgentState) (r : Resume) (j : Option JobReq)
    (i₁ i₂ : String) (y₁ y₂ : ℤ) :
    (scoreResume ((scoreResume st r j i₁ y₁).2) r j i₂ y₂).1
      = (scoreResume st r j i₁ y₁).1 := by
  unfold scoreResume
  rcases h : st.consistencyCache.find? (fun p => decide (p.1 = (r, j, st.weights)))
    with _ | p
  · simp only [h]
    rw [List.find?_cons_of_pos _ (by simp)]
  · simp only [h]

/-- `score_resume` on a freshly initialised agent is a cache miss and
computes the result from scratch. -/
lemma scoreResume_init (w : Option ScoringWeights) (r : Resume)
    (j : Option JobReq) (i : String) (y : ℤ) :
    (scoreResume (initAgent w) r j i y).1 =
      { overallScore :=
          round2 (overallScore (w.getD defaultWeights) (categoryScores r j y)),
        categoryScores := roundCategoryScores (categoryScores r j y),
        benchmarkComparison :=
          compareWithBenchmarks
            (overallScore (w.getD defaultWeights) (categoryScores r j y)) i,
        recommendations :=
          generateScoringRecommendations (categoryScores r j y) } := rfl

lemma bench_80_technology :
    (compareWithBenchmarks 80 "technology").performanceLevel = "Average" := by
  rw [compareWithBenchmarks]
  norm_num [show (industryBenchmarks.find? (fun p => p.1 == "technology")) =
    some ("technology", ⟨75, 90⟩) from by decide]

lemma bench_80_healthcare :
    (compareWithBenchmarks 80 "healthcare").performanceLevel = "Above Average" := by
  rw [compareWithBenchmarks]
  norm_num [show (industryBenchmarks.find? (fun p => p.1 == "healthcare")) =
    some ("healthcare", ⟨70, 85⟩) from by decide]

/-- If every experience entry has a non-empty end date other than
"present", `_calculate_duration` never reads the current year. -/
lemma calculateDuration_year_indep (s e : String)
    (he : e ≠ "" ∧ toLowerStr e ≠ "present") (y₁ y₂ : ℤ) :
    calculateDuration s e y₁ = calculateDuration s e y₂ := by
  unfold calculateDuration
  split_ifs <;> rfl

lemma expEntryScore_year_indep (e : Experience) (j : Option JobReq)
    (he : e.endDate ≠ "" ∧ toLowerStr e.endDate ≠ "present") (y₁ y₂ : ℤ) :
    expEntryScore e j y₁ = expEntryScore e j y₂ := by
  unfold expEntryScore
  rw [calculateDuration_year_indep _ _ he y₁ y₂]

lemma categoryScores_year_indep (r : Resume) (j : Option JobReq)
    (h : ∀ e ∈ r.experience, e.endDate ≠ "" ∧ toLowerStr e.endDate ≠ "present")
    (y₁ y₂ : ℤ) :
    categoryScores r j y₁ = categoryScores r j y₂ := by
  unfold categoryScores scoreExperienceRelevance
  have hm : r.experience.map (fun e => expEntryScore e j y₁)
      = r.experience.map (fun e => expEntryScore e j y₂) :=
    List.map_congr_left (fun e hmem => expEntryScore_year_indep e j (h e hmem) y₁ y₂)
  rw [hm]

lemma scoreResume_year_indep (st : AgentState) (r : Resume) (j : Option JobReq)
    (i : String)
    (h : ∀ e ∈ r.experience, e.endDate ≠ "" ∧ toLowerStr e.endDate ≠ "present")
    (y₁ y₂ : ℤ) :
    scoreResume st r j i y₁ = scoreResume st r j i y₂ := by
  unfold scoreResume
  rw [categoryScores_year_indep r j h y₁ y₂]

lemma freshCI_year_indep (w : ScoringWeights) (r : Resume) (j : Option JobReq)
    (h : ∀ e ∈ r.experience, e.endDate ≠ "" ∧ toLowerStr e.endDate ≠ "present")
    (y₁ y₂ : ℤ) :
    freshConfidenceInterval w r j y₁ = freshConfidenceInterval w r j y₂ := by
  unfold freshConfidenceInterval
  rw [categoryScores_year_indep r j h y₁ y₂]

lemma dur_cr2 (y : ℤ) : calculateDuration "01/2022" "present" y
    = max (((y - 2022 : ℤ) : ℚ)) 0 :=
  calculateDuration_present "01/2022" "present" y 2022 (by decide) (by decide)
    (by decide) (by decide)

lemma exprel_cr2_2024 : scoreExperienceRelevance cr2 none 2024 = 30 := by
  rw [scoreExperienceRelevance]
  norm_num [show cr2.experience = [⟨"", "", "01/2022", "present", [], []⟩] from rfl,
    show ¬([(⟨"", "", "01/2022", "present", [], []⟩ : Experience)]
      = ([] : List Experience)) from by decide,
    expEntryScore, dur_cr2, durationScore, respScore, achScore, seniorityBonus,
    entryWeight, relevanceBonus,
    show toLowerStr "" = "" from by decide,
    show ¬(∃ x ∈ seniorWords, strHas "" x = true) from by decide,
    show ¬(∃ x ∈ juniorWords, strHas "" x = true) from by decide]

lemma exprel_cr2_2025 : scoreExperienceRelevance cr2 none 2025 = 40 := by
  rw [scoreExperienceRelevance]
  norm_num [show cr2.experience = [⟨"", "", "01/2022", "present", [], []⟩] from rfl,
    show ¬([(⟨"", "", "01/2022", "present", [], []⟩ : Experience)]
      = ([] : List Experience)) from by decide,
    expEntryScore, dur_cr2, durationScore, respScore, achScore, seniorityBonus,
    entryWeight, relevanceBonus,
    show toLowerStr "" = "" from by decide,
    show ¬(∃ x ∈ seniorWords, strHas "" x = true) from by decide,
    show ¬(∃ x ∈ juniorWords, strHas "" x = true) from by decide]

lemma skills_cr2 : scoreSkillsMatch cr2 none = 0 := by
  rw [scoreSkillsMatch]
  norm_num [show allResumeSkills cr2 = [] from by decide]

lemma edu_cr2 : scoreEducationAlignment cr2 none = 40 := by
  rw [scoreEducationAlignment]
  norm_num [show cr2.education = [] from rfl]

lemma fmt_cr2 : scoreFormatStructure cr2 = 10 := by
  rw [scoreFormatStructure]
  norm_num [show cr2.personalInfo = none from rfl,
    show cr2.experience = [⟨"", "", "01/2022", "present", [], []⟩] from rfl,
    show cr2.education = ([] : List Education) from rfl,
    show cr2.skills = ([] : List (String × List String)) from rfl,
    show ¬([(⟨"", "", "01/2022", "present", [], []⟩ : Experience)]
      = ([] : List Experience)) from by decide,
    show ([(⟨"", "", "01/2022", "present", [], []⟩ : Experience)].filter
      experienceComplete).length = 0 from by decide]

lemma kw_cr2 : scoreKeywordOptimization cr2 none = 0 := by
  rw [scoreKeywordOptimization]
  norm_num [show toLowerStr (extractAllText cr2) ≠ "" from by decide,
    show finalTargets none = generalKeywords from by decide,
    show (generalKeywords.countP
      (fun k => strHas (toLowerStr (extractAllText cr2)) k)) = 0 from by decide,
    show generalKeywords.length = 9 from by decide]

/-! # Claim theorems -/

/-- C1 (counterexample): on a single agent, score the same
`(resume, job requirements)` pair first with `industry = "technology"`,
then with `industry = "healthcare"`; the first overall score is exactly 80,
yet both returned results carry the *same* performance level, "Average" —
the second call is a consistency-cache hit (the hash ignores the industry),
contradicting the claimed "different benchmark performance levels". -/
theorem claim_C1_counterexample :
    (scoreResume (initAgent none) cr1 (some jr1) "technology" 2024).1.overallScore = 80 ∧
    (scoreResume ((scoreResume (initAgent none) cr1 (some jr1) "technology" 2024).2)
        cr1 (some jr1) "healthcare" 2024).1.benchmarkComparison.performanceLevel
      = (scoreResume (initAgent none) cr1 (some jr1)
          "technology" 2024).1.benchmarkComparison.performanceLevel ∧
    (scoreResume (initAgent none) cr1 (some jr1)
        "technology" 2024).1.benchmarkComparison.performanceLevel = "Average" := by
  refine ⟨?_, ?_, ?_⟩
  · rw [scoreResume_init]
    simp only [Option.getD_none]
    rw [overall_cr1]
    norm_num [round2]
  · rw [scoreResume_second]
  · rw [scoreResume_init]
    simp only [Option.getD_none]
    rw [overall_cr1, bench_80_technology]

/-- C1 (amended): a repeat `score_resume` call for the same
`(resume, job requirements)` pair on the same agent returns the first
call's result verbatim, whatever industry (or year) is passed — the
consistency hash covers only `(resume, job, weights)` — so the second
result keeps the first call's benchmark comparison.  The benchmark *table*
itself does classify an overall score of 80 as "Average" for technology
(average 75) and "Above Average" for healthcare (average 70), as the claim
says; the differing levels are observable only on fresh agents, not on a
repeat call on the same agent. -/
theorem claim_C1 :
    (∀ (st : AgentState) (r : Resume) (j : Option JobReq) (i₁ i₂ : String)
      (y₁ y₂ : ℤ),
      (scoreResume ((scoreResume st r j i₁ y₁).2) r j i₂ y₂).1
        = (scoreResume st r j i₁ y₁).1) ∧
    (compareWithBenchmarks 80 "technology").performanceLevel = "Average" ∧
    (compareWithBenchmarks 80 "healthcare").performanceLevel = "Above Average" :=
  ⟨scoreResume_second, bench_80_technology, bench_80_healthcare⟩

/-- C2 (counterexample): `score_resume` is *not* wall-clock independent:
for a resume whose only experience entry has `end_date = "present"`, two
fresh-agent invocations in calendar years 2024 and 2025 return different
overall scores (15.0 vs 17.5), because `_calculate_duration` resolves
"present" with `datetime.now().year`. -/
theorem claim_C2_counterexample :
    (scoreResume (initAgent none) cr2 none "general" 2024).1.overallScore
      ≠ (scoreResume (initAgent none) cr2 none "general" 2025).1.overallScore := by
  rw [scoreResume_init, scoreResume_init]
  simp only [Option.getD_none]
  rw [show categoryScores cr2 none 2024 = ⟨0, 30, 40, 10, 0⟩ from by
        rw [categoryScores, skills_cr2, exprel_cr2_2024, edu_cr2, fmt_cr2, kw_cr2],
      show categoryScores cr2 none 2025 = ⟨0, 40, 40, 10, 0⟩ from by
        rw [categoryScores, skills_cr2, exprel_cr2_2025, edu_cr2, fmt_cr2, kw_cr2]]
  norm_num [overallScore, defaultWeights, round2]

/-- C2 (amended): for a fixed `(resume, job requirements, weights)` triple,
`score_resume` is a pure function of the triple and independent of the
wall clock **provided no experience entry has a missing end date or an
end date equal to "present" (case-insensitively)**; under that proviso the
whole result (and the freshly computed confidence interval) is identical
across invocations in different calendar years.  Without the proviso the
numeric result can change across years (see the counterexample). -/
theorem claim_C2 (r : Resume) (j : Option JobReq)
    (h : ∀ e ∈ r.experience, e.endDate ≠ "" ∧ toLowerStr e.endDate ≠ "present")
    (st : AgentState) (i : String) (y₁ y₂ : ℤ) :
    scoreResume st r j i y₁ = scoreResume st r j i y₂ ∧
    freshConfidenceInterval st.weights r j y₁
      = freshConfidenceInterval st.weights r j y₂ :=
  ⟨scoreResume_year_indep st r j i h y₁ y₂,
   freshCI_year_indep st.weights r j h y₁ y₂⟩

/-- Witness for C2: the hypothesis holds for the concrete resume `cr1`
(all end dates are explicit `MM/YYYY` strings), and the theorem applied at
years 2024 and 2030 gives equal results. -/
theorem claim_C2_witness :
    (∀ e ∈ cr1.experience, e.endDate ≠ "" ∧ toLowerStr e.endDate ≠ "present") ∧
    scoreResume (initAgent none) cr1 (some jr1) "general" 2024
      = scoreResume (initAgent none) cr1 (some jr1) "general" 2030 :=
  ⟨by decide,
   (claim_C2 cr1 (some jr1) (by decide) (initAgent none) "general" 2024 2030).1⟩

lemma vw_cfg08 : cfg08.validateWeights = false := by
  norm_num [ScoringConfig.validateWeights, cfg08, abs_lt]

lemma vw_default : defaultScoringConfig.validateWeights = true := by
  norm_num [ScoringConfig.validateWeights, defaultScoringConfig]

lemma skills_empty : scoreSkillsMatch emptyResume none = 0 := by
  rw [scoreSkillsMatch]
  norm_num [show allResumeSkills emptyResume = [] from by decide]

lemma exprel_empty (y : ℤ) : scoreExperienceRelevance emptyResume none y = 0 := by
  rw [scoreExperienceRelevance]
  norm_num [show emptyResume.experience = [] from rfl]

lemma edu_empty : scoreEducationAlignment emptyResume none = 40 := by
  rw [scoreEducationAlignment]
  norm_num [show emptyResume.education = [] from rfl]

lemma fmt_empty : scoreFormatStructure emptyResume = 0 := by
  rw [scoreFormatStructure]
  norm_num [show emptyResume.personalInfo = none from rfl,
    show emptyResume.experience = [] from rfl,
    show emptyResume.education = ([] : List Education) from rfl,
    show emptyResume.skills = ([] : List (String × List String)) from rfl]

lemma kw_empty : scoreKeywordOptimization emptyResume none = 0 := by
  rw [scoreKeywordOptimization]
  norm_num [show toLowerStr (extractAllText emptyResume) = "" from by decide]

lemma cs_empty (y : ℤ) : categoryScores emptyResume none y = ⟨0, 0, 40, 0, 0⟩ := by
  rw [categoryScores, skills_empty, exprel_empty, edu_empty, fmt_empty, kw_empty]

/-- C3 (counterexample): a weight set summing to 0.8 fails
`ScoringConfig.validate_weights`, yet an `ATSScoringAgent` constructed
directly with it stores it unvalidated and `score_resume` produces a score
computed with exactly those weights (the empty resume scores 8.0 = 40 × 0.2
instead of the default-weight 6.0 = 40 × 0.15) — the scorer does not refuse
to run. -/
theorem claim_C3_counterexample :
    cfg08.validateWeights = false ∧
    (initAgent (some w08)).weights = w08 ∧
    (scoreResume (initAgent (some w08)) emptyResume none "general" 2024).1.overallScore = 8 ∧
    (scoreResume (initAgent none) emptyResume none "general" 2024).1.overallScore = 6 := by
  refine ⟨vw_cfg08, rfl, ?_, ?_⟩
  · rw [scoreResume_init]
    simp only [Option.getD_some]
    rw [cs_empty]
    norm_num [overallScore, w08, round2]
  · rw [scoreResume_init]
    simp only [Option.getD_none]
    rw [cs_empty]
    norm_num [overallScore, defaultWeights, round2]

/-- C3 (amended): the environment-config loader checks the ±0.001 sum
invariant and, on failure, silently *replaces* the weight set with the
defaults (it does not refuse); the `ATSScoringAgent` constructor stores any
given weight set without validation, and `score_resume` computes with the
stored weights unchecked (weight validity is indeed never re-checked at
scoring time). -/
theorem claim_C3 :
    (∀ c : ScoringConfig, c.validateWeights = false →
      loadScoringConfig c = defaultScoringConfig) ∧
    (∀ c : ScoringConfig, c.validateWeights = true → loadScoringConfig c = c) ∧
    (∀ w : ScoringWeights, (initAgent (some w)).weights = w) ∧
    (∀ (w : ScoringWeights) (r : Resume) (j : Option JobReq) (i : String) (y : ℤ),
      (scoreResume (initAgent (some w)) r j i y).1.overallScore
        = round2 (overallScore w (categoryScores r j y))) := by
  refine ⟨?_, ?_, fun w => rfl, fun w r j i y => rfl⟩
  · intro c hc
    rw [loadScoringConfig]
    simp [hc]
  · intro c hc
    rw [loadScoringConfig]
    simp [hc]

/-- Witness for C3: instantiated at the invalid 0.8-sum config and at the
valid default config. -/
theorem claim_C3_witness :
    cfg08.validateWeights = false ∧ loadScoringConfig cfg08 = defaultScoringConfig ∧
    defaultScoringConfig.validateWeights = true ∧
    loadScoringConfig defaultScoringConfig = defaultScoringConfig :=
  ⟨vw_cfg08, claim_C3.1 cfg08 vw_cfg08, vw_default,
   claim_C3.2.1 defaultScoringConfig vw_default⟩

lemma length_dedup_filter_mem (l₁ l₂ : List String) :
    (l₁.dedup.filter (fun s => decide (s ∈ l₂))).length
      = (l₁.toFinset ∩ l₂.toFinset).card := by
  rw [← List.toFinset_card_of_nodup (List.Nodup.filter _ l₁.nodup_dedup)]
  congr 1
  ext x
  simp [List.mem_filter, List.mem_dedup, Finset.mem_inter]

/-- C4: `_score_skills_match` agrees with the spec's description — 0 for a
resume without skills; `100 × |resume_skills ∩ required_skills| /
|required_skills|` capped at 100 when non-empty `required_skills` are
given (set intersection of case-folded skills); otherwise the
≥15→95, ≥10→85, ≥7→75, ≥5→65, ≥3→50, else 30 quantity ladder.  Scenario 4:
`["Python"]` against required `["Python", "SQL", "AWS"]` rounds to 33.33. -/
theorem claim_C4 :
    (∀ (r : Resume) (j : Option JobReq), scoreSkillsMatch r j = skillsMatchSpec r j) ∧
    round2 (scoreSkillsMatch scen4Resume (some scen4Job)) = 3333/100 := by
  constructor
  · intro r j
    unfold scoreSkillsMatch skillsMatchSpec quantityLadderSpec
    by_cases h : allResumeSkills r = []
    · simp [h]
    · rcases j with _ | jr
      · simp [h]
      · by_cases hr : jr.requiredSkills = []
        · simp [h, hr]
        · simp only [h, hr, if_neg, if_false, ne_eq, not_false_iff, if_true]
          rw [length_dedup_filter_mem]
  · rw [scoreSkillsMatch]
    norm_num [show allResumeSkills scen4Resume = ["python"] from by decide,
      show scen4Job.requiredSkills = ["Python", "SQL", "AWS"] from rfl,
      show (["Python", "SQL", "AWS"].map toLowerStr) = ["python", "sql", "aws"]
        from by decide,
      show ((["python"] : List String).dedup.filter
        (fun s => decide (s ∈ (["python", "sql", "aws"] : List String)))).length = 1
        from by decide,
      show ¬((["Python", "SQL", "AWS"] : List String) = []) from by decide]
    norm_num [round2, round_eq]

lemma scoreSkillsMatch_bounds (r : Resume) (j : Option JobReq) :
    0 ≤ scoreSkillsMatch r j ∧ scoreSkillsMatch r j ≤ 100 := by
  rw [scoreSkillsMatch]
  rcases j with _ | jr <;>
    (try dsimp only) <;>
    split_ifs <;> constructor <;> first | (norm_num; done) | positivity

lemma expEntryScore_fst_nonneg (e : Experience) (j : Option JobReq) (y : ℤ) :
    0 ≤ (expEntryScore e j y).1 := by
  unfold expEntryScore durationScore respScore achScore seniorityBonus relevanceBonus
  rcases j with _ | jr <;> (try dsimp only) <;> split_ifs <;> positivity

lemma expEntryScore_snd_pos (e : Experience) (j : Option JobReq) (y : ℤ) :
    0 < (expEntryScore e j y).2 := by
  unfold expEntryScore entryWeight
  (try dsimp only)
  split_ifs <;> norm_num

lemma scoreExperienceRelevance_bounds (r : Resume) (j : Option JobReq) (y : ℤ) :
    0 ≤ scoreExperienceRelevance r j y ∧ scoreExperienceRelevance r j y ≤ 100 := by
  rw [scoreExperienceRelevance]
  (try dsimp only)
  split_ifs with h hw
  · norm_num
  · refine ⟨le_min ?_ (by norm_num), min_le_right _ _⟩
    apply div_nonneg _ (le_of_lt hw)
    apply List.sum_nonneg
    intro x hx
    simp only [List.mem_map] at hx
    obtain ⟨p, hp, rfl⟩ := hx
    obtain ⟨e, he, rfl⟩ := hp
    exact mul_nonneg (expEntryScore_fst_nonneg e j y)
      (le_of_lt (expEntryScore_snd_pos e j y))
  · norm_num
lemma le_foldl_max (l : List ℚ) (a : ℚ) : a ≤ l.foldl max a := by
  induction l generalizing a with
  | nil => exact le_refl a
  | cons b t ih => exact le_trans (le_max_left a b) (ih (max a b))

lemma scoreEducationAlignment_bounds (r : Resume) (j : Option JobReq) :
    0 ≤ scoreEducationAlignment r j ∧ scoreEducationAlignment r j ≤ 100 := by
  rw [scoreEducationAlignment]
  split_ifs
  · norm_num
  · exact ⟨le_min (le_foldl_max _ 0) (by norm_num), min_le_right _ _⟩

lemma scoreFormatStructure_bounds (r : Resume) :
    0 ≤ scoreFormatStructure r ∧ scoreFormatStructure r ≤ 100 := by
  rw [scoreFormatStructure]
  constructor
  · apply le_min _ (by norm_num)
    (try dsimp only)
    split_ifs <;> positivity
  · exact min_le_right _ _

lemma scoreKeywordOptimization_bounds (r : Resume) (j : Option JobReq) :
    0 ≤ scoreKeywordOptimization r j ∧ scoreKeywordOptimization r j ≤ 100 := by
  rw [scoreKeywordOptimization]
  (try dsimp only)
  split_ifs <;> constructor <;> first | (norm_num; done) | positivity

lemma round2_bounds {x : ℚ} (h0 : 0 ≤ x) (h100 : x ≤ 100) :
    0 ≤ round2 x ∧ round2 x ≤ 100 := by
  rw [round2, round_eq]
  constructor
  · apply div_nonneg _ (by norm_num)
    exact_mod_cast Int.floor_nonneg.2 (by linarith)
  · have h2 : ⌊x * 100 + 1 / 2⌋ ≤ 10000 := by
      calc ⌊x * 100 + 1 / 2⌋ ≤ ⌊(10000 + 1 / 2 : ℚ)⌋ :=
            Int.floor_le_floor (by linarith)
        _ = 10000 := by norm_num
    calc ((⌊x * 100 + 1 / 2⌋ : ℤ) : ℚ) / 100 ≤ ((10000 : ℤ) : ℚ) / 100 := by
          apply div_le_div_of_nonneg_right ?_ (by norm_num)
          exact_mod_cast h2
      _ = 100 := by norm_num
lemma overallScore_default_bounds (cs : CategoryScores)
    (h1 : 0 ≤ cs.skillsMatch ∧ cs.skillsMatch ≤ 100)
    (h2 : 0 ≤ cs.experienceRelevance ∧ cs.experienceRelevance ≤ 100)
    (h3 : 0 ≤ cs.educationAlignment ∧ cs.educationAlignment ≤ 100)
    (h4 : 0 ≤ cs.formatStructure ∧ cs.formatStructure ≤ 100)
    (h5 : 0 ≤ cs.keywordOptimization ∧ cs.keywordOptimization ≤ 100) :
    0 ≤ overallScore defaultWeights cs ∧ overallScore defaultWeights cs ≤ 100 := by
  obtain ⟨a1, b1⟩ := h1
  obtain ⟨a2, b2⟩ := h2
  obtain ⟨a3, b3⟩ := h3
  obtain ⟨a4, b4⟩ := h4
  obtain ⟨a5, b5⟩ := h5
  rw [overallScore, defaultWeights]
  constructor <;> [nlinarith; nlinarith]

/-- C5: on any input (any resume, optional job requirements, any industry
and year), every category score in the returned `ScoreResult` and the
overall weighted score under the default weights lie in `[0, 100]`. -/
theorem claim_C5 (r : Resume) (j : Option JobReq) (i : String) (y : ℤ) :
    (0 ≤ (scoreResume (initAgent none) r j i y).1.categoryScores.skillsMatch ∧
      (scoreResume (initAgent none) r j i y).1.categoryScores.skillsMatch ≤ 100) ∧
    (0 ≤ (scoreResume (initAgent none) r j i y).1.categoryScores.experienceRelevance ∧
      (scoreResume (initAgent none) r j i y).1.categoryScores.experienceRelevance ≤ 100) ∧
    (0 ≤ (scoreResume (initAgent none) r j i y).1.categoryScores.educationAlignment ∧
      (scoreResume (initAgent none) r j i y).1.categoryScores.educationAlignment ≤ 100) ∧
    (0 ≤ (scoreResume (initAgent none) r j i y).1.categoryScores.formatStructure ∧
      (scoreResume (initAgent none) r j i y).1.categoryScores.formatStructure ≤ 100) ∧
    (0 ≤ (scoreResume (initAgent none) r j i y).1.categoryScores.keywordOptimization ∧
      (scoreResume (initAgent none) r j i y).1.categoryScores.keywordOptimization ≤ 100) ∧
    (0 ≤ (scoreResume (initAgent none) r j i y).1.overallScore ∧
      (scoreResume (initAgent none) r j i y).1.overallScore ≤ 100) := by
  rw [scoreResume_init]
  simp only [Option.getD_none, roundCategoryScores, categoryScores]
  have hov := overallScore_default_bounds (categoryScores r j y)
    (scoreSkillsMatch_bounds r j) (scoreExperienceRelevance_bounds r j y)
    (scoreEducationAlignment_bounds r j) (scoreFormatStructure_bounds r)
    (scoreKeywordOptimization_bounds r j)
  rw [categoryScores] at hov
  exact ⟨round2_bounds (scoreSkillsMatch_bounds r j).1 (scoreSkillsMatch_bounds r j).2,
    round2_bounds (scoreExperienceRelevance_bounds r j y).1 (scoreExperienceRelevance_bounds r j y).2,
    round2_bounds (scoreEducationAlignment_bounds r j).1 (scoreEducationAlignment_bounds r j).2,
    round2_bounds (scoreFormatStructure_bounds r).1 (scoreFormatStructure_bounds r).2,
    round2_bounds (scoreKeywordOptimization_bounds r j).1 (scoreKeywordOptimization_bounds r j).2,
    round2_bounds hov.1 hov.2⟩

lemma npStd_five (a b c d e : ℚ) :
    npStd [a, b, c, d, e]
      = Real.sqrt ((((a : ℝ) - (((a : ℝ) + (b : ℝ) + (c : ℝ) + (d : ℝ) + (e : ℝ)) / 5)) ^ 2
        + ((b : ℝ) - (((a : ℝ) + (b : ℝ) + (c : ℝ) + (d : ℝ) + (e : ℝ)) / 5)) ^ 2
        + ((c : ℝ) - (((a : ℝ) + (b : ℝ) + (c : ℝ) + (d : ℝ) + (e : ℝ)) / 5)) ^ 2
        + ((d : ℝ) - (((a : ℝ) + (b : ℝ) + (c : ℝ) + (d : ℝ) + (e : ℝ)) / 5)) ^ 2
        + ((e : ℝ) - (((a : ℝ) + (b : ℝ) + (c : ℝ) + (d : ℝ) + (e : ℝ)) / 5)) ^ 2) / 5) := by
  rw [npStd]
  congr 1
  norm_num
  ring

/-- C6: the confidence interval of a freshly computed `ScoreResult` equals
`(round2 (max 0 (overall − m)), round2 (min 100 (overall + m)))` where
`overall` is the weighted sum of the five *unrounded* category scores and
`m = 1.96 × (population standard deviation of the five category scores) / √5`
— exactly the spec-worded `confidenceIntervalSpec`. -/
theorem claim_C6 (w : ScoringWeights) (r : Resume) (j : Option JobReq) (y : ℤ) :
    freshConfidenceInterval w r j y
      = confidenceIntervalSpec w (categoryScores r j y) := by
  rw [freshConfidenceInterval, calcConfidenceInterval, confidenceIntervalSpec]
  generalize categoryScores r j y = cs
  obtain ⟨a, b, c, d, e⟩ := cs
  rw [if_neg (by norm_num [scoresList])]
  simp only [scoresList]
  rw [npStd_five]
  norm_num [mul_div_assoc]
  constructor <;> (congr 1; ring_nf)

/-- C7: the recommendation list equals exactly the messages of the fixed
rule ladder in its fixed order (skills<70: one message;
experience<70: two; education<60: one; format<70: two; keywords<70: two;
mean of the five scores <60: one final rewrite message), and identical
scores give an identical ordered list. -/
theorem claim_C7 :
    (∀ cs : CategoryScores,
      generateScoringRecommendations cs = recommendationsSpec cs) ∧
    (∀ cs₁ cs₂ : CategoryScores, cs₁ = cs₂ →
      generateScoringRecommendations cs₁ = generateScoringRecommendations cs₂) := by
  constructor
  · intro cs
    have h : (scoresList cs).sum / ((scoresList cs).length : ℚ)
        = (cs.skillsMatch + cs.experienceRelevance + cs.educationAlignment
            + cs.formatStructure + cs.keywordOptimization) / 5 := by
      simp [scoresList]
      ring
    rw [generateScoringRecommendations, recommendationsSpec, h]
  · intro cs₁ cs₂ h
    rw [h]

/-- Witness for C7: instantiated at the all-50 score map (which triggers
every rule). -/
theorem claim_C7_witness :
    generateScoringRecommendations ⟨50, 50, 50, 50, 50⟩
      = recommendationsSpec ⟨50, 50, 50, 50, 50⟩ ∧
    generateScoringRecommendations ⟨50, 50, 50, 50, 50⟩
      = generateScoringRecommendations ⟨50, 50, 50, 50, 50⟩ :=
  ⟨claim_C7.1 ⟨50, 50, 50, 50, 50⟩,
   claim_C7.2 ⟨50, 50, 50, 50, 50⟩ ⟨50, 50, 50, 50, 50⟩ rfl⟩

lemma findMatchAux_eq_find? (sl : String) (tax : Taxonomy) :
    findMatchAux sl tax = (tax.find? (entryFuzzyMatches sl)).map Prod.snd := by
  induction tax with
  | nil => rfl
  | cons p rest ih =>
    obtain ⟨k, e⟩ := p
    rw [findMatchAux]
    by_cases h1 : ((e.aliases.map toLowerStr).contains sl) = true
    · rw [if_pos h1, List.find?_cons_of_pos _ (by
        simp only [entryFuzzyMatches, Bool.or_eq_true]
        left
        left
        simpa using h1)]
      rfl
    · by_cases h2 : (strHas k sl || strHas sl k) = true
      · have h2' := h2
        simp only [Bool.or_eq_true] at h2'
        rw [if_neg h1, if_pos h2,
          List.find?_cons_of_pos _ (by
            simp only [entryFuzzyMatches, Bool.or_eq_true]
            tauto)]
        rfl
      · have h1' := h1
        have h2' := h2
        simp only [Bool.not_eq_true] at h1'
        simp only [Bool.or_eq_true, not_or, Bool.not_eq_true] at h2'
        rw [if_neg h1, if_neg h2,
          List.find?_cons_of_neg _ (by
            simp only [entryFuzzyMatches, h1', h2'.1, h2'.2, Bool.or_false,
              Bool.false_or]
            decide)]
        exact ih

/-- C8 (counterexample): querying "JavaScript" against a taxonomy whose
first entry is keyed "java" (no aliases) and whose second entry carries the
alias "javascript" returns the *first* entry — its key "java" is a
substring of "javascript" — even though the second entry matches by alias;
an alias match does not take priority over an earlier entry's
substring-only match. -/
theorem claim_C8_counterexample :
    findSkillMatch taxC8 "JavaScript" = some taxJava ∧
    taxJava ≠ taxJs ∧
    ((taxJs.aliases.map toLowerStr).contains (toLowerStr "JavaScript")) = true ∧
    ((taxJava.aliases.map toLowerStr).contains (toLowerStr "JavaScript")) = false :=
  ⟨by decide, by decide, by decide, by decide⟩

/-- C8 (amended): an exact case-insensitive key match always wins (stage 1
holds); otherwise the *first taxonomy entry in iteration order* matching by
alias or by two-way key substring wins — the alias and substring tests are
interleaved per entry, so an alias match in a later entry does not beat a
substring match in an earlier one. -/
theorem claim_C8 :
    (∀ (tax : Taxonomy) (skill : String) (e : TaxEntry),
      (tax.find? (fun p => p.1 == toLowerStr skill)).map Prod.snd = some e →
      findSkillMatch tax skill = some e) ∧
    (∀ (tax : Taxonomy) (skill : String),
      (tax.find? (fun p => p.1 == toLowerStr skill)).map Prod.snd = none →
      findSkillMatch tax skill
        = (tax.find? (entryFuzzyMatches (toLowerStr skill))).map Prod.snd) := by
  constructor
  · intro tax skill e h
    rw [findSkillMatch]
    simp only [h]
  · intro tax skill h
    rw [findSkillMatch]
    simp only [h]
    exact findMatchAux_eq_find? (toLowerStr skill) tax

/-- Witness for C8: the direct-lookup hypothesis discharged at the concrete
taxonomy `taxC8` and query "JavaScript". -/
theorem claim_C8_witness :
    (([("java", taxJava), ("js", taxJs)] : Taxonomy).find?
        (fun p => p.1 == toLowerStr "JavaScript")).map Prod.snd = none ∧
    findSkillMatch taxC8 "JavaScript"
      = ((taxC8 : Taxonomy).find?
          (entryFuzzyMatches (toLowerStr "JavaScript"))).map Prod.snd :=
  ⟨by decide, claim_C8.2 taxC8 "JavaScript" (by decide)⟩

lemma scoreResume_invariant_step (st : AgentState) (r : Resume)
    (j : Option JobReq) (i : String) (y : ℤ)
    (h : st.consistencyCache.length = st.scoringHistory.length) :
    (scoreResume st r j i y).2.consistencyCache.length
      = (scoreResume st r j i y).2.scoringHistory.length := by
  rw [scoreResume]
  rcases hf : st.consistencyCache.find? (fun p => decide (p.1 = (r, j, st.weights)))
    with _ | p
  · simp only [hf]
    simp [h]
  · simp only [hf]
    exact h

lemma applyCalls_invariant (calls : List (Resume × Option JobReq × String × ℤ))
    (st : AgentState)
    (h : st.consistencyCache.length = st.scoringHistory.length) :
    (applyCalls st calls).consistencyCache.length
      = (applyCalls st calls).scoringHistory.length := by
  induction calls generalizing st with
  | nil => exact h
  | cons c rest ih =>
    exact ih _ (scoreResume_invariant_step st c.1 c.2.1 c.2.2.1 c.2.2.2 h)

/-- C9: after any sequence of `score_resume` calls on one agent,
`len(consistency_cache) = len(scoring_history)` — a miss adds exactly one
cache entry and one history entry, a hit changes neither — so
`get_scoring_statistics`' `consistency_rate` is 100.0 whenever the history
is non-empty. -/
theorem claim_C9 (calls : List (Resume × Option JobReq × String × ℤ))
    (w : Option ScoringWeights) :
    (applyCalls (initAgent w) calls).consistencyCache.length
      = (applyCalls (initAgent w) calls).scoringHistory.length ∧
    ((applyCalls (initAgent w) calls).scoringHistory ≠ [] →
      consistencyRate (applyCalls (initAgent w) calls) = 100) := by
  have hlen := applyCalls_invariant calls (initAgent w) rfl
  refine ⟨hlen, fun hne => ?_⟩
  rw [consistencyRate, hlen]
  have hN : ((applyCalls (initAgent w) calls).scoringHistory.length : ℚ) ≠ 0 := by
    simpa using hne
  rw [div_self hN]
  norm_num

/-- Witness for C9: one call on a fresh agent — the history is non-empty
and the consistency rate is 100. -/
theorem claim_C9_witness :
    (applyCalls (initAgent none)
        [(emptyResume, none, "general", 2024)]).consistencyCache.length
      = (applyCalls (initAgent none)
          [(emptyResume, none, "general", 2024)]).scoringHistory.length ∧
    consistencyRate (applyCalls (initAgent none)
      [(emptyResume, none, "general", 2024)]) = 100 :=
  ⟨(claim_C9 [(emptyResume, none, "general", 2024)] none).1,
   (claim_C9 [(emptyResume, none, "general", 2024)] none).2 (by decide)⟩

/-- C10: the `return 50.0` default branch of `_score_keyword_optimization`
is unreachable: the general keyword list has 9 elements, the final target
list is never empty (job keywords/required skills when truthy, else the
general list), and the score is always 0 on empty resume text or the
capped match percentage otherwise. -/
theorem claim_C10 (r : Resume) (j : Option JobReq) :
    generalKeywords.length = 9 ∧
    finalTargets j ≠ [] ∧
    scoreKeywordOptimization r j =
      (if toLowerStr (extractAllText r) = "" then 0
       else min ((((finalTargets j).countP
             (fun k => strHas (toLowerStr (extractAllText r)) k) : ℕ) : ℚ)
         / ((finalTargets j).length : ℚ) * 100) 100) := by
  have ht : finalTargets j ≠ [] := by
    rw [finalTargets]
    split_ifs with h
    · decide
    · exact h
  refine ⟨by decide, ht, ?_⟩
  rw [scoreKeywordOptimization]
  by_cases h : toLowerStr (extractAllText r) = ""
  · simp [h]
  · rw [if_neg h, if_neg h, if_pos (List.length_pos.2 ht)]

end ATS
